import Mathlib

/-!
# URL_Shortener front end: the submission controller of `frontend/src/App.jsx`

A shallow embedding of the `App` component's logic: `validateUrl`, `handleSubmit`,
`handleReset`, `copyToClipboard` and the `disabled` attributes of the form controls.

Conventions of the embedding.

* A JavaScript string is a Lean `String` (a sequence of Unicode scalar values).
  `String.prototype.trim`, `startsWith`, `+` and `.length` are given by `jsTrim`,
  `jsStartsWith`, `++` and `jsLength`.
* What the browser supplies and the repository does not contain is a parameter:
  the WHATWG URL parser (`new URL(...)`), the build-time variable `VITE_API_URL`,
  whether `navigator.clipboard` is defined and the text of the engine's `TypeError` are
  the fields of `Platform`; the way the awaited `fetch` settles is a `FetchOutcome`.
* A handler is the list of effects it performs, in program order. React state
  setters are effects; the state after the handler is the state before it with
  the setters applied in order (`runEffects`).
-/

namespace UrlShortener

/-! ## JavaScript strings -/

/-- ECMAScript `WhiteSpace` and `LineTerminator` code points: what `trim` strips. -/
def isJsWhitespace (c : Char) : Bool :=
  let n := c.toNat
  n = 0x0009 || n = 0x000A || n = 0x000B || n = 0x000C || n = 0x000D || n = 0x0020 ||
  n = 0x00A0 || n = 0x1680 || (0x2000 ≤ n && n ≤ 0x200A) || n = 0x2028 || n = 0x2029 ||
  n = 0x202F || n = 0x205F || n = 0x3000 || n = 0xFEFF

/-- Strip the leading and the trailing white space of a list of characters. -/
def trimChars (l : List Char) : List Char :=
  ((l.dropWhile isJsWhitespace).reverse.dropWhile isJsWhitespace).reverse

/-- The method `String.prototype.trim`. -/
def jsTrim (s : String) : String := ⟨trimChars s.data⟩

/-- The method `String.prototype.startsWith`, called with one argument. -/
def jsStartsWith (s pre : String) : Bool := pre.data.isPrefixOf s.data

/-- Number of UTF-16 code units of one character. -/
def utf16Units (c : Char) : Nat := if c.toNat < 0x10000 then 1 else 2

/-- The property `length` of a string: its number of UTF-16 code units. -/
def jsLength (s : String) : Nat := (s.data.map utf16Units).sum

/-! ## The platform -/

/-- What the browser and the build supply to the component. -/
structure Platform where
  /-- The constructor `new URL(s)` followed by `.hostname`: `none` when the constructor throws. -/
  parseHostname : String → Option String
  /-- The value of `import.meta.env.VITE_API_URL`, `none` when it is undefined. -/
  viteApiUrl : Option String
  /-- Whether `navigator.clipboard` is defined: it is in a secure context only (a page served
  over `https` or from `localhost`), and is `undefined` elsewhere. -/
  hasClipboard : Bool
  /-- Message of the `TypeError` thrown when the named property of `null` is read. -/
  nullPropertyMessage : String → String
  /-- Message of the `TypeError` thrown when the named property of `undefined` is read. -/
  undefinedPropertyMessage : String → String
  /-- Message of the `TypeError` thrown when an object has no primitive value. -/
  toPrimitiveMessage : String

/-- Line 4: `import.meta.env.VITE_API_URL || 'http://localhost:8000'`. -/
def API_BASE_URL (P : Platform) : String :=
  match P.viteApiUrl with
  | some v => if v = "" then "http://localhost:8000" else v
  | none => "http://localhost:8000"

/-! ## Validation -/

/-- The object returned by `validateUrl`: `{ valid: true, url }` or `{ valid: false, error }`. -/
inductive Validation where
  | valid (url : String)
  | invalid (error : String)
  deriving DecidableEq, Repr

/-- The field `valid` of a validation result. -/
def Validation.isValid : Validation → Bool
  | .valid _ => true
  | .invalid _ => false

/-- The `try` block of `validateUrl` (lines 15-25); `none` stands for a thrown exception. -/
def validateUrlTry (P : Platform) (urlString : String) : Option Validation :=
  let urlString :=
    if !jsStartsWith urlString "http://" && !jsStartsWith urlString "https://" then
      "https://" ++ urlString
    else urlString
  match P.parseHostname urlString with
  | none => none
  | some hostname =>
    if hostname = "" || jsLength hostname < 3 then
      some (.invalid "Invalid website address")
    else
      some (.valid urlString)

/-- The function `validateUrl` (lines 13-29): the `try` block, and the `catch` clause
that turns any exception into the invalid result. -/
def validateUrl (P : Platform) (urlString : String) : Validation :=
  match validateUrlTry P urlString with
  | some r => r
  | none => .invalid "Invalid website address"

/-- The reference definition of validation, as the specification words it: apply the scheme,
then accept the scheme-applied string exactly when it parses and its host has at least three
characters (counted as `.length` counts them). -/
def validateUrlReference (P : Platform) (s : String) : Validation :=
  let p := if jsStartsWith s "http://" ∨ jsStartsWith s "https://" then s else "https://" ++ s
  if (∃ h, P.parseHostname p = some h ∧ 3 ≤ jsLength h) then .valid p
  else .invalid "Invalid website address"

/-! ## JavaScript values -/

/-- A value that `response.json()` can resolve to, or `undefined`. A number is given by
what the component can observe of it: whether it is zero, and its string conversion. An object
is given by its own properties, the first entry for a key being that property's value. -/
inductive JsValue where
  | undefined
  | null
  | bool (b : Bool)
  | number (isZero : Bool) (text : String)
  | string (s : String)
  | array (items : List JsValue)
  | object (props : List (String × JsValue))

/-- The abstract operation `ToBoolean`. -/
def JsValue.truthy : JsValue → Bool
  | .undefined => false
  | .null => false
  | .bool b => b
  | .number isZero _ => !isZero
  | .string s => s ≠ ""
  | .array _ => true
  | .object _ => true

/-- The operator `a || b`. -/
def JsValue.or (a b : JsValue) : JsValue := if a.truthy then a else b

/-- Reading `data.key`, for a key that no built-in prototype defines (here `error` and
`short_url`): an own property of an object, `undefined` on any other value, and a `TypeError`
on `null` and `undefined`. -/
def JsValue.getProp (P : Platform) (data : JsValue) (key : String) : Except String JsValue :=
  match data with
  | .undefined => .error (P.undefinedPropertyMessage key)
  | .null => .error (P.nullPropertyMessage key)
  | .object props => .ok ((props.lookup key).getD .undefined)
  | _ => .ok .undefined

mutual
/-- The abstract operation `ToString` on a value parsed from JSON. An object that has an own
property `toString` (never callable in parsed JSON) has no primitive value. -/
def JsValue.toJsString (P : Platform) : JsValue → Except String String
  | .undefined => .ok "undefined"
  | .null => .ok "null"
  | .bool b => .ok (if b then "true" else "false")
  | .number _ text => .ok text
  | .string s => .ok s
  | .array items => JsValue.join P items
  | .object props =>
    if props.any (fun kv => kv.1 = "toString") then .error P.toPrimitiveMessage
    else .ok "[object Object]"
/-- The method `Array.prototype.join` with the separator `,`. -/
def JsValue.join (P : Platform) : List JsValue → Except String String
  | [] => .ok ""
  | [x] => JsValue.joinItem P x
  | x :: y :: rest =>
    match JsValue.joinItem P x with
    | .error e => .error e
    | .ok a =>
      match JsValue.join P (y :: rest) with
      | .error e => .error e
      | .ok b => .ok (a ++ "," ++ b)
/-- One element of a joined array: `null` and `undefined` give the empty string. -/
def JsValue.joinItem (P : Platform) : JsValue → Except String String
  | .undefined => .ok ""
  | .null => .ok ""
  | .bool b => .ok (if b then "true" else "false")
  | .number _ text => .ok text
  | .string s => .ok s
  | .array items => JsValue.join P items
  | .object props =>
    if props.any (fun kv => kv.1 = "toString") then .error P.toPrimitiveMessage
    else .ok "[object Object]"
end

/-! ## Component state and effects -/

/-- The five `useState` cells of `App` (lines 7-11). -/
structure State where
  url : String
  shortUrl : JsValue
  loading : Bool
  error : String
  copied : Bool

/-- The initial values given to `useState`. -/
def State.initial : State :=
  { url := "", shortUrl := .string "", loading := false, error := "", copied := false }

/-- A call of a React state setter. -/
inductive Setter where
  | setUrl (v : String)
  | setShortUrl (v : JsValue)
  | setLoading (v : Bool)
  | setError (v : String)
  | setCopied (v : Bool)

/-- The request passed to `fetch` (lines 54-60); `json` is the argument of `JSON.stringify`. -/
structure Request where
  url : String
  method : String
  headers : List (String × String)
  json : JsValue

/-- What a handler does, one entry per call it makes; `uncaught` is an exception that leaves
the handler, after which the handler makes no further call. -/
inductive Effect where
  | preventDefault
  | set (u : Setter)
  | fetch (r : Request)
  | consoleError (label message : String)
  | clipboardWriteText (text : JsValue)
  | uncaught (message : String)
  | setTimeout (callback : List Setter) (delay : Nat)

/-- The state after one setter call. -/
def Setter.apply (s : State) : Setter → State
  | .setUrl v => { s with url := v }
  | .setShortUrl v => { s with shortUrl := v }
  | .setLoading v => { s with loading := v }
  | .setError v => { s with error := v }
  | .setCopied v => { s with copied := v }

/-- The state after one effect: only setters change it. -/
def Effect.apply (s : State) : Effect → State
  | .set u => u.apply s
  | _ => s

/-- The state after a handler ran: its setter calls applied in program order. -/
def runEffects (s : State) (effects : List Effect) : State := effects.foldl Effect.apply s

/-- The requests a handler issued. -/
def requestsOf : List Effect → List Request
  | [] => []
  | .fetch r :: rest => r :: requestsOf rest
  | _ :: rest => requestsOf rest

/-! ## The remote service -/

/-- The response that `fetch` resolves to: its status, and how `response.json()` settles, with
the parsed body or with the message of the exception (the body is not JSON text, which
includes the empty body). -/
structure Response where
  status : Nat
  json : Except String JsValue

/-- The property `response.ok`: the status is in the range 200-299. -/
def Response.ok (r : Response) : Bool := 200 ≤ r.status && r.status ≤ 299

/-- How the awaited `fetch` settles: rejected with an exception of the given message
(transport failure), or resolved with a response. -/
abbrev FetchOutcome := Except String Response

/-! ## The handlers -/

/-- Lines 38-49 of `handleSubmit`: trim, refuse the empty input, then `validateUrl`. -/
def normalizeAndValidate (P : Platform) (url : String) : Validation :=
  let trimmedUrl := jsTrim url
  if trimmedUrl = "" then .invalid "Enter the URL"
  else validateUrl P trimmedUrl

/-- The request of lines 54-60. -/
def shortenRequest (P : Platform) (url : String) : Request :=
  { url := API_BASE_URL P ++ "/api/shorten/"
    method := "POST"
    headers := [("Content-Type", "application/json")]
    json := .object [("url", .string url)] }

/-- The `try` block of `handleSubmit` after the call of `fetch` (lines 54-68): the setter calls
it makes, or the message of the exception it throws. -/
def submitTry (P : Platform) (outcome : FetchOutcome) : Except String (List Effect) := do
  let response ← outcome
  let data ← response.json
  if !response.ok then
    let error ← data.getProp P "error"
    let message ← (error.or (.string "Error in shortening the URL")).toJsString P
    throw message
  let short_url ← data.getProp P "short_url"
  pure [.set (.setShortUrl short_url)]

/-- The handler `handleSubmit` (lines 31-76), run on the state its closure captured and
on the way its request settles. The `catch` clause (lines 70-72) logs and shows the message of
the exception; the `finally` clause (lines 73-75) follows on every path through `try`. -/
def handleSubmit (P : Platform) (s : State) (outcome : FetchOutcome) : List Effect :=
  [.preventDefault, .set (.setError ""), .set (.setShortUrl (.string "")),
    .set (.setCopied false)] ++
  match normalizeAndValidate P s.url with
  | .invalid error => [.set (.setError error)]
  | .valid url =>
    [.set (.setLoading true), .fetch (shortenRequest P url)] ++
    (match submitTry P outcome with
      | .ok effects => effects
      | .error message => [.consoleError "Error:" message, .set (.setError message)]) ++
    [.set (.setLoading false)]

/-- The handler `handleReset` (lines 78-83). -/
def handleReset : List Effect :=
  [.set (.setUrl ""), .set (.setShortUrl (.string "")), .set (.setError ""),
    .set (.setCopied false)]

/-- The handler `copyToClipboard` (lines 85-89). Line 86 reads `writeText` of
`navigator.clipboard` with no guard and outside any `try`: where `navigator.clipboard` is
`undefined` that throws a `TypeError`, and lines 87-88 do not run. Where it is defined,
`writeText` returns a promise, which the handler drops. -/
def copyToClipboard (P : Platform) (s : State) : List Effect :=
  if P.hasClipboard then
    [.clipboardWriteText s.shortUrl, .set (.setCopied true),
      .setTimeout [.setCopied false] 2000]
  else
    [.uncaught (P.undefinedPropertyMessage "writeText")]

/-! ## The form controls -/

/-- Line 144: the submit button has `disabled={loading || !url}`. -/
def submitDisabled (s : State) : Bool := s.loading || s.url = ""

/-- Line 120: the text input has `disabled={loading}`. -/
def inputDisabled (s : State) : Bool := s.loading

/-- Line 122: the clear button is rendered under `url && ...`. -/
def clearRendered (s : State) : Bool := s.url ≠ ""

/-- Line 127: the clear button has `disabled={loading}`. -/
def clearDisabled (s : State) : Bool := s.loading

/-- Line 160: the result and its copy button are rendered under `shortUrl && ...`. -/
def resultRendered (s : State) : Bool := s.shortUrl.truthy

/-- Submission of the form of line 112 by the user. The form has one submit button, and the
browser neither activates a disabled button nor submits a form implicitly whose submit button
is disabled, so `onSubmit` runs only when that button is enabled. -/
def formSubmit (P : Platform) (s : State) (outcome : FetchOutcome) : List Effect :=
  if submitDisabled s then [] else handleSubmit P s outcome

/-- A click on the clear button of lines 123-130, whose `onClick` is `handleReset`: nothing
happens when the button is absent or disabled. -/
def clearClick (s : State) : List Effect :=
  if clearRendered s && !clearDisabled s then handleReset else []

/-! ## Timers -/

/-- A pending `setTimeout`: the time at which it is due, and its callback. -/
structure Timer where
  due : Nat
  callback : List Setter

/-- The component in time: its state, the clock in milliseconds, and the pending timers in the
order in which they will fire. -/
structure World where
  state : State
  now : Nat
  timers : List Timer

/-- Add a timer to the pending ones: after those that are due no later than it. -/
def schedule (t : Timer) (ts : List Timer) : List Timer :=
  ts.takeWhile (fun u => u.due ≤ t.due) ++ t :: ts.dropWhile (fun u => u.due ≤ t.due)

/-- One effect in the world: a setter changes the state, `setTimeout` adds a timer. -/
def World.perform (w : World) : Effect → World
  | .set u => { w with state := u.apply w.state }
  | .setTimeout callback delay =>
    { w with timers := schedule { due := w.now + delay, callback := callback } w.timers }
  | _ => w

/-- A handler in the world: its effects in program order. -/
def World.run (w : World) (effects : List Effect) : World := effects.foldl World.perform w

/-- The state after the callback of a timer ran. -/
def Timer.fire (s : State) (t : Timer) : State := t.callback.foldl Setter.apply s

/-- Let the given number of milliseconds pass: the timers that are due by then fire in order
and are removed. -/
def World.elapse (w : World) (ms : Nat) : World :=
  { state := (w.timers.takeWhile (fun t => t.due ≤ w.now + ms)).foldl Timer.fire w.state
    now := w.now + ms
    timers := w.timers.dropWhile (fun t => t.due ≤ w.now + ms) }

/-! ## The file `App.js` -/

namespace AppJs

/-- The four `useState` cells of `App.js` (lines 7-10): it has no `copied`. -/
structure State where
  url : String
  shortUrl : JsValue
  loading : Bool
  error : String

/-- A call of a state setter of `App.js`. -/
inductive Setter where
  | setUrl (v : String)
  | setShortUrl (v : JsValue)
  | setError (v : String)

/-- The state after one setter call. -/
def Setter.apply (s : State) : Setter → State
  | .setUrl v => { s with url := v }
  | .setShortUrl v => { s with shortUrl := v }
  | .setError v => { s with error := v }

/-- The handler `handleReset` of `App.js` (lines 77-81). -/
def handleReset : List Setter := [.setUrl "", .setShortUrl (.string ""), .setError ""]

/-- The state after the given setter calls. -/
def runSetters (s : State) (setters : List Setter) : State := setters.foldl Setter.apply s

end AppJs

/-! ## A browser for the examples -/

/-- A platform for the examples: the URL parser of a browser on the addresses that the
examples use, the development default of the API address, and the messages of V8. -/
def exampleBrowser : Platform where
  parseHostname s :=
    if s = "https://example.com" then some "example.com"
    else if s = "http://example.com" then some "example.com"
    else if s = "https://ab" then some "ab"
    else none
  viteApiUrl := none
  hasClipboard := true
  nullPropertyMessage key := "Cannot read properties of null (reading \x27" ++ key ++ "\x27)"
  undefinedPropertyMessage key :=
    "Cannot read properties of undefined (reading \x27" ++ key ++ "\x27)"
  toPrimitiveMessage := "Cannot convert object to primitive value"

/-- The state in which the user has typed `example.com` and nothing else happened. -/
def typedExample : State := { State.initial with url := "example.com" }

/-- The state in which `example.com` is typed and a submission is pending. -/
def pendingExample : State := { State.initial with url := "example.com", loading := true }

/-- The example browser on a page that is not a secure context, such as one served over
plain `http` from a host other than `localhost`. -/
def insecureBrowser : Platform := { exampleBrowser with hasClipboard := false }

/-- The state after the success of the example: `Succeeded` with `https://short.ly/abc`. -/
def resultExample : State :=
  { url := "example.com", shortUrl := JsValue.string "https://short.ly/abc", loading := false,
    error := "", copied := false }

/-- The world in which the component is in `resultExample` and no timer is pending. -/
def resultWorld : World := { state := resultExample, now := 0, timers := [] }

/-- The state after a success, with the copy acknowledged. -/
def succeededExample : State :=
  { url := "example.com", shortUrl := JsValue.string "https://short.ly/abc", loading := false,
    error := "", copied := true }

/-! ## Strings -/

theorem string_eq_empty_iff (s : String) : s = "" ↔ s.data = [] := by
  constructor
  · intro h; subst h; rfl
  · intro h; cases s; simp at h; subst h; rfl

theorem jsStartsWith_append (pre s : String) : jsStartsWith (pre ++ s) pre = true := by
  simp [jsStartsWith, String.data_append]

theorem jsLength_eq_zero_of_empty (h : String) (he : h = "") : jsLength h = 0 := by
  subst he; rfl

theorem trimChars_eq_rdropWhile (l : List Char) :
    trimChars l = (l.dropWhile isJsWhitespace).rdropWhile isJsWhitespace := rfl

/-- A trimmed list does not start with white space. -/
theorem trimChars_head (l : List Char) (hl : trimChars l ≠ []) :
    isJsWhitespace ((trimChars l).head hl) = false := by
  have hpre : trimChars l <+: l.dropWhile isJsWhitespace := by
    rw [trimChars_eq_rdropWhile]; exact List.rdropWhile_prefix isJsWhitespace _
  rw [hpre.head hl]
  exact List.head_dropWhile_not _ _ _

/-- A trimmed list does not end with white space. -/
theorem trimChars_getLast (l : List Char) (hl : trimChars l ≠ []) :
    isJsWhitespace ((trimChars l).getLast hl) = false := by
  have := List.rdropWhile_last_not isJsWhitespace (l.dropWhile isJsWhitespace) hl
  simpa [trimChars_eq_rdropWhile] using this

/-- Trimming changes nothing in a list with no white space at either end. -/
theorem trimChars_eq_self (l : List Char)
    (h1 : ∀ hl : l ≠ [], isJsWhitespace (l.head hl) = false)
    (h2 : ∀ hl : l ≠ [], isJsWhitespace (l.getLast hl) = false) : trimChars l = l := by
  have hd : l.dropWhile isJsWhitespace = l := by
    rw [List.dropWhile_eq_self_iff]
    intro hlen
    have hne : l ≠ [] := List.ne_nil_of_length_pos hlen
    have := h1 hne
    cases l with
    | nil => exact absurd rfl hne
    | cons a l => simpa using this
  rw [trimChars_eq_rdropWhile, hd, List.rdropWhile_eq_self_iff]
  intro hne
  simpa using h2 hne

theorem trimChars_idem (l : List Char) : trimChars (trimChars l) = trimChars l :=
  trimChars_eq_self _ (trimChars_head l) (trimChars_getLast l)

theorem jsTrim_idem (s : String) : jsTrim (jsTrim s) = jsTrim s := by
  simp [jsTrim, trimChars_idem]

theorem jsTrim_eq_self_of_data (s : String) (h : trimChars s.data = s.data) : jsTrim s = s := by
  cases s; simp only [jsTrim] at *; rw [h]

/-- Trimming changes nothing in `https://` followed by a non-empty trimmed string. -/
theorem jsTrim_https_append (s : String) (hs : jsTrim s ≠ "") :
    jsTrim ("https://" ++ jsTrim s) = "https://" ++ jsTrim s := by
  have hne : trimChars s.data ≠ [] := by
    intro h; apply hs; rw [string_eq_empty_iff]; simpa [jsTrim] using h
  apply jsTrim_eq_self_of_data
  have hdata : ("https://" ++ jsTrim s).data = "https://".data ++ trimChars s.data := by
    simp [String.data_append, jsTrim]
  rw [hdata]
  apply trimChars_eq_self
  · intro _; simp; decide
  · intro hl
    rw [List.getLast_append_of_ne_nil hne]
    exact trimChars_getLast _ hne

/-! ## Validation -/

/-- The scheme-applied string, as the code computes it and as the reference words it. -/
theorem applyScheme_eq (s : String) :
    (if (!jsStartsWith s "http://" && !jsStartsWith s "https://") = true then "https://" ++ s
      else s) =
    (if jsStartsWith s "http://" = true ∨ jsStartsWith s "https://" = true then s
      else "https://" ++ s) := by
  cases jsStartsWith s "http://" <;> cases jsStartsWith s "https://" <;> simp

/-- C2: `validateUrl` equals the reference definition on every string, hence on every
non-empty trimmed one: the scheme `https://` is put before a string that starts with neither
`http://` nor `https://`, and the result is valid, with the scheme-applied string itself as
its URL, exactly when that string parses with a host of at least three characters, and is
invalid with `Invalid website address` otherwise. -/
theorem validateUrl_eq_reference (P : Platform) (s : String) :
    validateUrl P s = validateUrlReference P s := by
  unfold validateUrl validateUrlTry validateUrlReference
  simp only [applyScheme_eq]
  generalize (if jsStartsWith s "http://" = true ∨ jsStartsWith s "https://" = true then s
      else "https://" ++ s) = p
  cases hp : P.parseHostname p with
  | none => simp
  | some h =>
    by_cases hl : 3 ≤ jsLength h
    · have hne : h ≠ "" := by
        intro he; rw [jsLength_eq_zero_of_empty h he] at hl; omega
      have : ¬ jsLength h < 3 := by omega
      simp [hl, hne, this]
    · have : jsLength h < 3 := by omega
      simp [hl, this]

/-- The examples of the specification for validation, in the example browser. -/
theorem validateUrl_examples :
    validateUrl exampleBrowser "example.com" = .valid "https://example.com" ∧
    validateUrl exampleBrowser "http://example.com" = .valid "http://example.com" ∧
    validateUrl exampleBrowser "ab" = .invalid "Invalid website address" ∧
    validateUrl exampleBrowser "not a url with spaces" = .invalid "Invalid website address" := by
  decide

/-- On a string of characters of the Basic Multilingual Plane, as every host name of an
`http` or `https` URL is, `.length` counts the characters. -/
theorem jsLength_eq_length (s : String) (h : ∀ c ∈ s.data, c.toNat < 0x10000) :
    jsLength s = s.length := by
  cases s with
  | mk l =>
    simp only [jsLength, String.length]
    induction l with
    | nil => rfl
    | cons c l ih =>
      have hc : c.toNat < 0x10000 := h c (List.mem_cons_self _ _)
      have hl : ∀ c ∈ l, c.toNat < 0x10000 := fun c hc => h c (List.mem_cons_of_mem _ hc)
      simp only [List.map_cons, List.sum_cons, List.length_cons, utf16Units, hc, if_true]
      rw [ih hl]; omega

/-- What a valid result of `validateUrl` says about its argument. -/
theorem validateUrl_valid_iff (P : Platform) (t n : String) :
    validateUrl P t = .valid n ↔
      (n = if jsStartsWith t "http://" = true ∨ jsStartsWith t "https://" = true then t
        else "https://" ++ t) ∧
      ∃ h, P.parseHostname n = some h ∧ 3 ≤ jsLength h := by
  unfold validateUrl validateUrlTry
  simp only [applyScheme_eq]
  generalize (if jsStartsWith t "http://" = true ∨ jsStartsWith t "https://" = true then t
      else "https://" ++ t) = p
  cases hp : P.parseHostname p with
  | none =>
    simp only [false_iff, reduceCtorEq]
    rintro ⟨rfl, h, hh, -⟩
    rw [hp] at hh; cases hh
  | some h =>
    by_cases hl : 3 ≤ jsLength h
    · have hne : h ≠ "" := by
        intro he; rw [jsLength_eq_zero_of_empty h he] at hl; omega
      have hlt : ¬ jsLength h < 3 := by omega
      simp only [hne, hlt, decide_False, Bool.or_self, Bool.false_eq_true, ↓reduceIte,
        Validation.valid.injEq]
      constructor
      · rintro rfl; exact ⟨rfl, h, hp, hl⟩
      · rintro ⟨rfl, -⟩; rfl
    · have hlt : jsLength h < 3 := by omega
      simp only [hlt, decide_True, Bool.or_true, ↓reduceIte, reduceCtorEq, false_iff]
      rintro ⟨rfl, h', hh, hl'⟩
      rw [hp] at hh; cases hh; exact hl hl'

/-- The URL of a valid result starts with a scheme. -/
theorem validateUrl_valid_startsWith (P : Platform) (t n : String)
    (h : validateUrl P t = .valid n) :
    jsStartsWith n "http://" = true ∨ jsStartsWith n "https://" = true := by
  obtain ⟨hn, -⟩ := (validateUrl_valid_iff P t n).1 h
  by_cases hc : jsStartsWith t "http://" = true ∨ jsStartsWith t "https://" = true
  · rw [if_pos hc] at hn; rw [hn]; exact hc
  · rw [if_neg hc] at hn; rw [hn]; exact Or.inr (jsStartsWith_append _ _)

/-- The URL of a valid result is valid, with itself as its URL. -/
theorem validateUrl_valid_fixed (P : Platform) (t n : String)
    (h : validateUrl P t = .valid n) : validateUrl P n = .valid n := by
  have hs := validateUrl_valid_startsWith P t n h
  obtain ⟨-, hh⟩ := (validateUrl_valid_iff P t n).1 h
  rw [validateUrl_valid_iff, if_pos hs]
  exact ⟨rfl, hh⟩

/-- What a valid result of lines 38-49 says about the input. -/
theorem normalizeAndValidate_valid_iff (P : Platform) (s n : String) :
    normalizeAndValidate P s = .valid n ↔ jsTrim s ≠ "" ∧ validateUrl P (jsTrim s) = .valid n := by
  unfold normalizeAndValidate
  by_cases h : jsTrim s = "" <;> simp [h]

/-- C9: normalization is idempotent on valid inputs: when trimming and validating an input
succeeds with the normalized URL `n`, trimming and validating `n` succeeds with `n` again. -/
theorem normalizeAndValidate_idempotent (P : Platform) (s n : String)
    (h : normalizeAndValidate P s = .valid n) : normalizeAndValidate P n = .valid n := by
  obtain ⟨hne, hv⟩ := (normalizeAndValidate_valid_iff P s n).1 h
  have hfix := validateUrl_valid_fixed P _ n hv
  obtain ⟨hn, -⟩ := (validateUrl_valid_iff P _ n).1 hv
  have htrim : jsTrim n = n := by
    by_cases hc : jsStartsWith (jsTrim s) "http://" = true ∨
        jsStartsWith (jsTrim s) "https://" = true
    · rw [if_pos hc] at hn; rw [hn]; exact jsTrim_idem s
    · rw [if_neg hc] at hn; rw [hn]; exact jsTrim_https_append s hne
  have hnn : n ≠ "" := by
    intro he
    rcases validateUrl_valid_startsWith P _ n hv with h1 | h1 <;>
      · rw [he] at h1; revert h1; decide
  rw [normalizeAndValidate_valid_iff, htrim]
  exact ⟨hnn, hfix⟩

/-- C9, an instance: `example.com` is normalized to `https://example.com`, which is
normalized to itself. -/
theorem normalizeAndValidate_idempotent_witness :
    normalizeAndValidate exampleBrowser "  example.com " = .valid "https://example.com" ∧
    normalizeAndValidate exampleBrowser "https://example.com" = .valid "https://example.com" :=
  ⟨by decide, normalizeAndValidate_idempotent exampleBrowser "  example.com " _ (by decide)⟩

/-! ## The handlers -/

theorem runEffects_append (s : State) (a b : List Effect) :
    runEffects s (a ++ b) = runEffects (runEffects s a) b := by
  simp [runEffects, List.foldl_append]

theorem requestsOf_append (a b : List Effect) :
    requestsOf (a ++ b) = requestsOf a ++ requestsOf b := by
  induction a with
  | nil => rfl
  | cons e a ih => cases e <;> simp [requestsOf, ih]

/-- An invalid result carries one of the two messages of lines 41 and 22/27. -/
theorem validateUrl_invalid_message (P : Platform) (t e : String)
    (h : validateUrl P t = .invalid e) : e = "Invalid website address" := by
  unfold validateUrl validateUrlTry at h
  simp only [applyScheme_eq] at h
  generalize (if jsStartsWith t "http://" = true ∨ jsStartsWith t "https://" = true then t
      else "https://" ++ t) = p at h
  cases hp : P.parseHostname p with
  | none => rw [hp] at h; cases h; rfl
  | some hostname =>
    rw [hp] at h
    by_cases hc : (decide (hostname = "") || decide (jsLength hostname < 3)) = true
    · simp only [hc, if_true] at h; cases h; rfl
    · simp only [hc, if_false] at h; cases h

/-- The effects of `handleSubmit` on an input that fails validation. -/
theorem handleSubmit_invalid (P : Platform) (s : State) (o : FetchOutcome) (e : String)
    (h : normalizeAndValidate P s.url = .invalid e) :
    handleSubmit P s o =
      [.preventDefault, .set (.setError ""), .set (.setShortUrl (.string "")),
        .set (.setCopied false), .set (.setError e)] := by
  simp [handleSubmit, h]

/-- The effects of `handleSubmit` on an input that passes validation. -/
theorem handleSubmit_valid (P : Platform) (s : State) (o : FetchOutcome) (n : String)
    (h : normalizeAndValidate P s.url = .valid n) :
    handleSubmit P s o =
      [.preventDefault, .set (.setError ""), .set (.setShortUrl (.string "")),
        .set (.setCopied false), .set (.setLoading true), .fetch (shortenRequest P n)] ++
      (match submitTry P o with
        | .ok effects => effects
        | .error message => [.consoleError "Error:" message, .set (.setError message)]) ++
      [.set (.setLoading false)] := by
  simp [handleSubmit, h]

/-- The state after `handleSubmit` whose `try` block threw. -/
theorem runEffects_handleSubmit_error (P : Platform) (s : State) (o : FetchOutcome)
    (n m : String) (h : normalizeAndValidate P s.url = .valid n)
    (ht : submitTry P o = .error m) :
    runEffects s (handleSubmit P s o) =
      { url := s.url, shortUrl := .string "", loading := false, error := m, copied := false } := by
  rw [handleSubmit_valid P s o n h, ht]
  rfl

/-- The state after `handleSubmit` whose `try` block reached `setShortUrl`. -/
theorem runEffects_handleSubmit_ok (P : Platform) (s : State) (o : FetchOutcome)
    (n : String) (v : JsValue) (h : normalizeAndValidate P s.url = .valid n)
    (ht : submitTry P o = .ok [.set (.setShortUrl v)]) :
    runEffects s (handleSubmit P s o) =
      { url := s.url, shortUrl := v, loading := false, error := "", copied := false } := by
  rw [handleSubmit_valid P s o n h, ht]
  rfl

/-- The `try` block on a success response with a parsed body that is not `null`. -/
theorem submitTry_success (P : Platform) (r : Response) (props : List (String × JsValue))
    (hok : r.ok = true) (hjson : r.json = .ok (.object props)) :
    submitTry P (.ok r) =
      .ok [.set (.setShortUrl ((props.lookup "short_url").getD .undefined))] := by
  simp [submitTry, hok, hjson, JsValue.getProp, bind, Except.bind, pure, Except.pure]

/-- The `try` block on a non-success response whose parsed body yields `error`. -/
theorem submitTry_failure (P : Platform) (r : Response) (data e : JsValue)
    (hok : r.ok = false) (hjson : r.json = .ok data) (he : data.getProp P "error" = .ok e) :
    submitTry P (.ok r) =
      match (e.or (.string "Error in shortening the URL")).toJsString P with
      | .ok m => .error m
      | .error m => .error m := by
  simp only [submitTry, hok, hjson, he, bind, Except.bind, pure, Except.pure]
  cases (e.or (.string "Error in shortening the URL")).toJsString P <;> rfl

/-- The `try` block on a response whose body is not JSON text. -/
theorem submitTry_unparseable (P : Platform) (r : Response) (m : String)
    (hjson : r.json = .error m) : submitTry P (.ok r) = .error m := by
  simp [submitTry, hjson, bind, Except.bind]

/-- The `try` block when `fetch` itself throws. -/
theorem submitTry_rejected (P : Platform) (m : String) :
    submitTry P (.error m) = .error m := by
  simp [submitTry, bind, Except.bind]

/-! ## Submission -/

/-- C1: on an input that passes validation and a success response whose parsed body has
`short_url` equal to the string `short`, a submit started in any state, so in any state that
is not pending, ends with `shortUrl = short`, `error = ''` and `loading = false`. -/
theorem handleSubmit_success (P : Platform) (s : State) (n : String) (r : Response)
    (props : List (String × JsValue)) (short : String)
    (hv : normalizeAndValidate P s.url = .valid n)
    (hok : r.ok = true) (hjson : r.json = .ok (.object props))
    (hshort : props.lookup "short_url" = some (.string short)) :
    (runEffects s (handleSubmit P s (.ok r))).shortUrl = .string short ∧
    (runEffects s (handleSubmit P s (.ok r))).error = "" ∧
    (runEffects s (handleSubmit P s (.ok r))).loading = false := by
  have ht := submitTry_success P r props hok hjson
  rw [hshort] at ht
  rw [runEffects_handleSubmit_ok P s (.ok r) n _ hv ht]
  exact ⟨rfl, rfl, rfl⟩

/-- C1, the example of the specification: `200` with `short_url` equal to
`https://short.ly/abc` ends in `Succeeded` with that address. -/
theorem handleSubmit_success_witness :
    (runEffects typedExample (handleSubmit exampleBrowser typedExample
      (.ok ⟨200, .ok (.object [("short_url", .string "https://short.ly/abc")])⟩))).shortUrl =
        .string "https://short.ly/abc" ∧
    (runEffects typedExample (handleSubmit exampleBrowser typedExample
      (.ok ⟨200, .ok (.object [("short_url", .string "https://short.ly/abc")])⟩))).error = "" ∧
    (runEffects typedExample (handleSubmit exampleBrowser typedExample
      (.ok ⟨200, .ok (.object [("short_url", .string "https://short.ly/abc")])⟩))).loading =
        false :=
  handleSubmit_success exampleBrowser typedExample "https://example.com"
    ⟨200, .ok (.object [("short_url", .string "https://short.ly/abc")])⟩
    [("short_url", .string "https://short.ly/abc")] "https://short.ly/abc"
    (by decide) (by decide) rfl rfl

/-- C3: on an input that fails validation, submit ends with the message of the validation as
its error, `Enter the URL` when the trimmed input is empty and `Invalid website address` when
`validateUrl` rejects the trimmed input; no request is issued, `loading` is never set to true
and keeps its value, and `shortUrl` is the empty string. -/
theorem handleSubmit_rejected (P : Platform) (s : State) (o : FetchOutcome)
    (h : (normalizeAndValidate P s.url).isValid = false) :
    (runEffects s (handleSubmit P s o)).error =
      (if jsTrim s.url = "" then "Enter the URL" else "Invalid website address") ∧
    (jsTrim s.url ≠ "" → (validateUrl P (jsTrim s.url)).isValid = false) ∧
    requestsOf (handleSubmit P s o) = [] ∧
    Effect.set (.setLoading true) ∉ handleSubmit P s o ∧
    (runEffects s (handleSubmit P s o)).loading = s.loading ∧
    (runEffects s (handleSubmit P s o)).shortUrl = .string "" := by
  cases hv : normalizeAndValidate P s.url with
  | valid n => rw [hv] at h; cases h
  | invalid e =>
    rw [handleSubmit_invalid P s o e hv]
    have he : e = (if jsTrim s.url = "" then "Enter the URL" else "Invalid website address") ∧
        (jsTrim s.url ≠ "" → (validateUrl P (jsTrim s.url)).isValid = false) := by
      unfold normalizeAndValidate at hv
      by_cases ht : jsTrim s.url = ""
      · simp only [ht, if_true] at hv ⊢
        cases hv
        exact ⟨rfl, fun hc => absurd rfl hc⟩
      · simp only [ht, if_false] at hv ⊢
        rw [hv]
        exact ⟨validateUrl_invalid_message P _ e hv, fun _ => rfl⟩
    refine ⟨he.1, he.2, rfl, ?_, rfl, rfl⟩
    simp

/-- C3, the examples of the specification: the inputs of three spaces and `ab`. -/
theorem handleSubmit_rejected_witness :
    ((runEffects { State.initial with url := "   " } (handleSubmit exampleBrowser
        { State.initial with url := "   " } (.error "unreachable"))).error = "Enter the URL" ∧
      requestsOf (handleSubmit exampleBrowser { State.initial with url := "   " }
        (.error "unreachable")) = []) ∧
    ((runEffects { State.initial with url := "ab" } (handleSubmit exampleBrowser
        { State.initial with url := "ab" } (.error "unreachable"))).error =
          "Invalid website address" ∧
      requestsOf (handleSubmit exampleBrowser { State.initial with url := "ab" }
        (.error "unreachable")) = []) :=
  ⟨⟨(handleSubmit_rejected exampleBrowser { State.initial with url := "   " }
        (.error "unreachable") (by decide)).1,
      (handleSubmit_rejected exampleBrowser { State.initial with url := "   " }
        (.error "unreachable") (by decide)).2.2.1⟩,
    ⟨(handleSubmit_rejected exampleBrowser { State.initial with url := "ab" }
        (.error "unreachable") (by decide)).1,
      (handleSubmit_rejected exampleBrowser { State.initial with url := "ab" }
        (.error "unreachable") (by decide)).2.2.1⟩⟩

/-- C4: on an input that passes validation and a non-success response whose parsed body has
`error` equal to a non-empty string `m`, submit ends with `error = m`, `shortUrl = ''` and
`loading = false`. -/
theorem handleSubmit_remote_error (P : Platform) (s : State) (n : String) (r : Response)
    (props : List (String × JsValue)) (m : String)
    (hv : normalizeAndValidate P s.url = .valid n)
    (hok : r.ok = false) (hjson : r.json = .ok (.object props))
    (herr : props.lookup "error" = some (.string m)) (hm : m ≠ "") :
    (runEffects s (handleSubmit P s (.ok r))).error = m ∧
    (runEffects s (handleSubmit P s (.ok r))).shortUrl = .string "" ∧
    (runEffects s (handleSubmit P s (.ok r))).loading = false := by
  have hp : (JsValue.object props).getProp P "error" = .ok (.string m) := by
    simp [JsValue.getProp, herr]
  have ht := submitTry_failure P r _ _ hok hjson hp
  have hor : (JsValue.string m).or (.string "Error in shortening the URL") = .string m := by
    simp [JsValue.or, JsValue.truthy, hm]
  rw [hor] at ht
  simp only [JsValue.toJsString] at ht
  rw [runEffects_handleSubmit_error P s (.ok r) n m hv ht]
  exact ⟨rfl, rfl, rfl⟩

/-- C4, the example of the specification: `500` with `error` equal to `rate limited` ends in
`Failed` with that message. -/
theorem handleSubmit_remote_error_witness :
    (runEffects typedExample (handleSubmit exampleBrowser typedExample
      (.ok ⟨500, .ok (.object [("error", .string "rate limited")])⟩))).error =
        "rate limited" ∧
    (runEffects typedExample (handleSubmit exampleBrowser typedExample
      (.ok ⟨500, .ok (.object [("error", .string "rate limited")])⟩))).shortUrl =
        .string "" ∧
    (runEffects typedExample (handleSubmit exampleBrowser typedExample
      (.ok ⟨500, .ok (.object [("error", .string "rate limited")])⟩))).loading = false :=
  handleSubmit_remote_error exampleBrowser typedExample "https://example.com"
    ⟨500, .ok (.object [("error", .string "rate limited")])⟩
    [("error", .string "rate limited")] "rate limited"
    (by decide) (by decide) rfl rfl (by decide)

/-- The two paths of a non-success response on an input that passes validation: the fallback
of line 65 gives `Error in shortening the URL` when the body parses to a value other than
`null` whose `error` is absent or falsy; when the body is not JSON text, line 62 throws before
line 64 tests `response.ok`, and the error is the message of that exception. -/
theorem handleSubmit_generic_message (P : Platform) (s : State) (n : String)
    (r : Response) (hv : normalizeAndValidate P s.url = .valid n) (hok : r.ok = false) :
    (∀ data e, r.json = .ok data → data.getProp P "error" = .ok e → e.truthy = false →
      (runEffects s (handleSubmit P s (.ok r))).error = "Error in shortening the URL") ∧
    (∀ m, r.json = .error m → (runEffects s (handleSubmit P s (.ok r))).error = m) := by
  constructor
  · intro data e hjson he hfalsy
    have ht := submitTry_failure P r data e hok hjson he
    have hor : e.or (.string "Error in shortening the URL") =
        .string "Error in shortening the URL" := by
      simp [JsValue.or, hfalsy]
    rw [hor] at ht
    simp only [JsValue.toJsString] at ht
    rw [runEffects_handleSubmit_error P s (.ok r) n _ hv ht]
  · intro m hjson
    rw [runEffects_handleSubmit_error P s (.ok r) n m hv (submitTry_unparseable P r m hjson)]

/-- The two paths at `500`: the body `{}` gives the generic message, the empty body gives the
message of the parser. -/
theorem handleSubmit_generic_message_witness :
    (runEffects typedExample (handleSubmit exampleBrowser typedExample
      (.ok ⟨500, .ok (.object [])⟩))).error = "Error in shortening the URL" ∧
    (runEffects typedExample (handleSubmit exampleBrowser typedExample
      (.ok ⟨500, .error "Unexpected end of JSON input"⟩))).error =
        "Unexpected end of JSON input" :=
  ⟨(handleSubmit_generic_message exampleBrowser typedExample "https://example.com"
      ⟨500, .ok (.object [])⟩ (by decide) (by decide)).1 (.object []) .undefined rfl rfl rfl,
    (handleSubmit_generic_message exampleBrowser typedExample "https://example.com"
      ⟨500, .error "Unexpected end of JSON input"⟩ (by decide) (by decide)).2 _ rfl⟩

/-- C5, the code at the failing input: `example.com` passes validation and the response is
`500` with an empty body, a non-success that supplies no error message; `response.json()`
throws at line 62, before the fallback of line 65 is reached, and the error shown is the
message of that exception, not `Error in shortening the URL`. -/
theorem handleSubmit_empty_body_message :
    normalizeAndValidate exampleBrowser typedExample.url = .valid "https://example.com" ∧
    Response.ok ⟨500, .error "Unexpected end of JSON input"⟩ = false ∧
    (runEffects typedExample (handleSubmit exampleBrowser typedExample
      (.ok ⟨500, .error "Unexpected end of JSON input"⟩))).error =
        "Unexpected end of JSON input" ∧
    (runEffects typedExample (handleSubmit exampleBrowser typedExample
      (.ok ⟨500, .error "Unexpected end of JSON input"⟩))).error ≠
        "Error in shortening the URL" := by
  refine ⟨by decide, by decide, rfl, ?_⟩
  have h : (runEffects typedExample (handleSubmit exampleBrowser typedExample
      (.ok ⟨500, .error "Unexpected end of JSON input"⟩))).error =
        "Unexpected end of JSON input" := rfl
  rw [h]
  decide

/-- C6, as the code has it: while `loading` is true the submit button and the input are
disabled, so a submission of the form does not reach `handleSubmit`: it performs no effect,
issues no request and leaves the state as it is. -/
theorem formSubmit_pending (P : Platform) (s : State) (o : FetchOutcome)
    (h : s.loading = true) :
    submitDisabled s = true ∧ inputDisabled s = true ∧
    formSubmit P s o = [] ∧ requestsOf (formSubmit P s o) = [] ∧
    runEffects s (formSubmit P s o) = s := by
  have hd : submitDisabled s = true := by simp [submitDisabled, h]
  have hf : formSubmit P s o = [] := by simp [formSubmit, hd]
  rw [hf]
  exact ⟨hd, h, rfl, rfl, rfl⟩

/-- C6, an instance: the pending state with `example.com` typed. -/
theorem formSubmit_pending_witness :
    submitDisabled pendingExample = true ∧ inputDisabled pendingExample = true ∧
    formSubmit exampleBrowser pendingExample (.error "Failed to fetch") = [] ∧
    requestsOf (formSubmit exampleBrowser pendingExample (.error "Failed to fetch")) = [] ∧
    runEffects pendingExample
      (formSubmit exampleBrowser pendingExample (.error "Failed to fetch")) = pendingExample :=
  formSubmit_pending exampleBrowser pendingExample (.error "Failed to fetch") rfl

/-- C6 as stated fails: `handleSubmit` has no guard on `loading`; invoked in the pending
state with `example.com` typed it issues one request, and it changes `loading`. -/
theorem handleSubmit_pending_counterexample :
    pendingExample.loading = true ∧
    (requestsOf (handleSubmit exampleBrowser pendingExample
      (.error "Failed to fetch"))).length = 1 ∧
    (runEffects pendingExample (handleSubmit exampleBrowser pendingExample
      (.error "Failed to fetch"))).loading = false ∧
    (runEffects pendingExample (handleSubmit exampleBrowser pendingExample
      (.error "Failed to fetch"))).error = "Failed to fetch" :=
  ⟨rfl, rfl, rfl, rfl⟩

/-! ## Reset -/

/-- C7, as the code has it: `handleReset` run in a state that is not pending gives the initial
state; it never writes `loading`, which keeps its value from any state, and the clear button
that runs it is disabled exactly while `loading` is true. The `handleReset` of `App.js`
sets `url`, `shortUrl` and `error` to the empty string and keeps `loading` too. -/
theorem handleReset_not_pending (s : State) (h : s.loading = false) :
    runEffects s handleReset = State.initial ∧
    (∀ s' : State, (runEffects s' handleReset).loading = s'.loading) ∧
    (∀ s' : State, clearDisabled s' = s'.loading) ∧
    (∀ s' : State, s'.loading = true → clearClick s' = []) ∧
    (∀ a : AppJs.State, AppJs.runSetters a AppJs.handleReset =
      { url := "", shortUrl := .string "", loading := a.loading, error := "" }) := by
  refine ⟨?_, fun _ => rfl, fun _ => rfl, ?_, fun _ => rfl⟩
  · cases s
    simp only at h
    subst h
    rfl
  · intro s' hs'
    simp [clearClick, clearDisabled, hs']

/-- C7, an instance: reset after a success. -/
theorem handleReset_not_pending_witness :
    runEffects succeededExample handleReset = State.initial :=
  (handleReset_not_pending succeededExample rfl).1

/-- C7 as stated fails: from the pending state `handleReset` leaves `loading` true. -/
theorem handleReset_pending_counterexample :
    pendingExample.loading = true ∧
    (runEffects pendingExample handleReset).loading = true ∧
    (runEffects pendingExample handleReset).loading ≠ false :=
  ⟨rfl, rfl, by decide⟩

/-- C8: on an input that passes validation, however the request settles (a success response,
a non-success response with or without an error message, a body that is not JSON text, or an
exception thrown by `fetch`), the state after submit has `loading = false`. -/
theorem handleSubmit_clears_loading (P : Platform) (s : State) (o : FetchOutcome) (n : String)
    (hv : normalizeAndValidate P s.url = .valid n) :
    (runEffects s (handleSubmit P s o)).loading = false := by
  rw [handleSubmit_valid P s o n hv, runEffects_append]
  rfl

/-- C8, an instance: the transport failure. -/
theorem handleSubmit_clears_loading_witness :
    (runEffects typedExample (handleSubmit exampleBrowser typedExample
      (.error "Failed to fetch"))).loading = false :=
  handleSubmit_clears_loading exampleBrowser typedExample (.error "Failed to fetch")
    "https://example.com" (by decide)

/-! ## Copy -/

/-- Scheduling keeps every pending timer and adds the new one. -/
theorem schedule_perm (t : Timer) (ts : List Timer) : (schedule t ts).Perm (t :: ts) := by
  unfold schedule
  refine List.perm_middle.trans (List.Perm.cons t ?_)
  rw [List.takeWhile_append_dropWhile]

/-- The timers due by the time of a new timer are the old ones due by then, and the new one
last. -/
theorem takeWhile_schedule (t : Timer) (ts : List Timer) :
    (schedule t ts).takeWhile (fun u => u.due ≤ t.due) =
      ts.takeWhile (fun u => u.due ≤ t.due) ++ [t] := by
  induction ts with
  | nil => simp [schedule]
  | cons u ts ih =>
    unfold schedule at ih ⊢
    by_cases hu : u.due ≤ t.due
    · simp only [List.takeWhile_cons, List.dropWhile_cons, hu, decide_True, if_true,
        List.cons_append]
      rw [ih]
    · simp [List.takeWhile_cons, List.dropWhile_cons, hu]

/-- A timer that is not due yet stays pending. -/
theorem mem_dropWhile_of_not_due (t : Timer) (ts : List Timer) (now : Nat)
    (ht : t ∈ ts) (hd : now < t.due) : t ∈ ts.dropWhile (fun u => u.due ≤ now) := by
  induction ts with
  | nil => cases ht
  | cons u ts ih =>
    rw [List.dropWhile_cons]
    by_cases hu : u.due ≤ now
    · simp only [hu, decide_True, if_true]
      rcases List.mem_cons.1 ht with rfl | hmem
      · omega
      · exact ih hmem
    · simp only [hu, decide_False]
      exact ht

theorem foldl_fire_append (s : State) (a : List Timer) (t : Timer) :
    (a ++ [t]).foldl Timer.fire s = Timer.fire (a.foldl Timer.fire s) t := by
  simp [List.foldl_append]

/-- The world after `copyToClipboard` where the Clipboard API is present. -/
theorem run_copyToClipboard (P : Platform) (w : World) (h : P.hasClipboard = true) :
    w.run (copyToClipboard P w.state) =
      { state := { w.state with copied := true }
        now := w.now
        timers := schedule { due := w.now + 2000, callback := [.setCopied false] } w.timers } := by
  simp only [copyToClipboard, h, if_true]
  rfl

/-- The world after `copyToClipboard` where `navigator.clipboard` is undefined: unchanged. -/
theorem run_copyToClipboard_undefined (P : Platform) (w : World) (h : P.hasClipboard = false) :
    w.run (copyToClipboard P w.state) = w := by
  simp only [copyToClipboard, h]
  rfl

/-- Where the Clipboard API is present, `copyToClipboard` sets `copied` to true and leaves
`url`, `shortUrl`, `error` and `loading` as they are; it adds one timer, due 2000 ms later with
the callback `setCopied(false)`, to the pending timers and removes none; that timer is still
pending at any earlier time, and once 2000 ms have passed `copied` is false. -/
theorem copyToClipboard_acknowledges (P : Platform) (w : World) (h : P.hasClipboard = true) :
    (w.run (copyToClipboard P w.state)).state = { w.state with copied := true } ∧
    ((w.run (copyToClipboard P w.state)).timers).Perm
      ({ due := w.now + 2000, callback := [.setCopied false] } :: w.timers) ∧
    (∀ ms, ms < 2000 →
      ({ due := w.now + 2000, callback := [.setCopied false] } : Timer) ∈
        ((w.run (copyToClipboard P w.state)).elapse ms).timers) ∧
    ((w.run (copyToClipboard P w.state)).elapse 2000).state.copied = false := by
  rw [run_copyToClipboard P w h]
  refine ⟨rfl, schedule_perm _ _, ?_, ?_⟩
  · intro ms hms
    apply mem_dropWhile_of_not_due
    · exact (schedule_perm _ _).mem_iff.2 (List.mem_cons_self _ _)
    · simp only; omega
  · simp only [World.elapse]
    have h := takeWhile_schedule { due := w.now + 2000, callback := [.setCopied false] } w.timers
    simp only at h
    rw [h, foldl_fire_append]
    rfl

/-- The example of the specification where the Clipboard API is present: after the copy the
acknowledgement is true, and 2000 ms later it is false. -/
theorem copyToClipboard_acknowledges_example :
    (resultWorld.run (copyToClipboard exampleBrowser resultWorld.state)).state.copied = true ∧
    ((resultWorld.run (copyToClipboard exampleBrowser resultWorld.state)).elapse
      1999).state.copied = true ∧
    ((resultWorld.run (copyToClipboard exampleBrowser resultWorld.state)).elapse
      2000).state.copied = false := by
  refine ⟨?_, rfl, (copyToClipboard_acknowledges exampleBrowser resultWorld rfl).2.2.2⟩
  rw [(copyToClipboard_acknowledges exampleBrowser resultWorld rfl).1]

/-- C10, the code at the failing input: in a `Succeeded` state on a page where
`navigator.clipboard` is undefined, `copyToClipboard` throws at line 86; `copied` stays
false, no timer is scheduled, and the state is unchanged, where the claim has `copied = true`
and one revert scheduled. -/
theorem copyToClipboard_insecure_context :
    insecureBrowser.hasClipboard = false ∧
    resultWorld.state.shortUrl = .string "https://short.ly/abc" ∧
    resultWorld.state.loading = false ∧ resultWorld.state.error = "" ∧
    copyToClipboard insecureBrowser resultWorld.state =
      [.uncaught "Cannot read properties of undefined (reading \x27writeText\x27)"] ∧
    (resultWorld.run (copyToClipboard insecureBrowser resultWorld.state)).state.copied = false ∧
    (resultWorld.run (copyToClipboard insecureBrowser resultWorld.state)).timers = [] ∧
    (resultWorld.run (copyToClipboard insecureBrowser resultWorld.state)).state.copied ≠ true :=
  ⟨rfl, rfl, rfl, rfl, rfl, rfl, rfl, by decide⟩

end UrlShortener
